import Mathlib

/-!
Shallow embedding of the geometry/estimation core of `servers/routing_server.py`
(class `RoutingServer`): great-circle distance (Haversine), initial bearing,
compass-direction quantization, and the three operations built on them
(`calculate_route`, `distance_matrix`, `find_nearby`).

Python floats are modelled as real numbers; Python's `round` builtin
(round-half-to-even, optionally to a number of decimal digits) is modelled by
`pyRound`/`round1`/`round2`; Python's `%` on floats by `pymod`; Python's
`math.atan2` by `atan2` below (the standard piecewise definition agreeing with
`math.atan2` at every real input, with `atan2 0 0 = 0`); `int(...)` truncation
by `pyInt`.
-/

namespace RoutingServer

noncomputable section

open Real

/-- `self.earth_radius_km = 6371`. -/
def earth_radius_km : ℝ := 6371

/-- Python `math.radians`: degrees to radians. -/
def radians (x : ℝ) : ℝ := x * π / 180

/-- Python `math.degrees`: radians to degrees. -/
def degrees (x : ℝ) : ℝ := x * 180 / π

/-- Python `math.atan2 y x`: the angle of the point `(x, y)` in `(-π, π]`,
with `atan2 0 0 = 0` as in IEEE/CPython. -/
def atan2 (y x : ℝ) : ℝ :=
  if 0 < x then arctan (y / x)
  else if x < 0 then
    (if 0 ≤ y then arctan (y / x) + π else arctan (y / x) - π)
  else
    (if 0 < y then π / 2 else if y < 0 then -(π / 2) else 0)

/-- Python's builtin `round` to an integer: round half to even. -/
def pyRound (x : ℝ) : ℤ :=
  if x - ⌊x⌋ < 1 / 2 then ⌊x⌋
  else if 1 / 2 < x - ⌊x⌋ then ⌊x⌋ + 1
  else if Even ⌊x⌋ then ⌊x⌋ else ⌊x⌋ + 1

/-- Python `round(x, 1)`. -/
def round1 (x : ℝ) : ℝ := (pyRound (x * 10) : ℝ) / 10

/-- Python `round(x, 2)`. -/
def round2 (x : ℝ) : ℝ := (pyRound (x * 100) : ℝ) / 100

/-- Python `a % b` on floats (sign of the result follows `b`). -/
def pymod (a b : ℝ) : ℝ := a - b * ⌊a / b⌋

/-- Python `int(x)` on a float: truncation toward zero. -/
def pyInt (x : ℝ) : ℤ := if 0 ≤ x then ⌊x⌋ else -⌊-x⌋

/-- Rendering used by Python's `f'{x:.1f}'` format, modelled exactly on the
real value (one decimal digit, round half to even). -/
def decStr1 (x : ℝ) : String :=
  if pyRound (x * 10) < 0 then
    "-" ++ toString ((-(pyRound (x * 10))).ediv 10) ++ "." ++
      toString ((-(pyRound (x * 10))).emod 10)
  else
    toString ((pyRound (x * 10)).ediv 10) ++ "." ++ toString ((pyRound (x * 10)).emod 10)

/-- `RoutingServer._calculate_distance`: Haversine distance in kilometers. -/
def calculate_distance (lat1 lon1 lat2 lon2 : ℝ) : ℝ :=
  let R := earth_radius_km
  let lat1_rad := radians lat1
  let lat2_rad := radians lat2
  let delta_lat := radians (lat2 - lat1)
  let delta_lon := radians (lon2 - lon1)
  let a := sin (delta_lat / 2) ^ 2 + cos lat1_rad * cos lat2_rad * sin (delta_lon / 2) ^ 2
  let c := 2 * atan2 (sqrt a) (sqrt (1 - a))
  R * c

/-- `RoutingServer._calculate_bearing`: initial bearing in degrees. -/
def calculate_bearing (lat1 lon1 lat2 lon2 : ℝ) : ℝ :=
  let lat1_rad := radians lat1
  let lat2_rad := radians lat2
  let delta_lon := radians (lon2 - lon1)
  let x := sin delta_lon * cos lat2_rad
  let y := cos lat1_rad * sin lat2_rad - sin lat1_rad * cos lat2_rad * cos delta_lon
  let bearing := atan2 x y
  pymod (degrees bearing + 360) 360

/-- The `directions` list of `RoutingServer._bearing_to_direction`. -/
def directions : List String :=
  ["North", "Northeast", "East", "Southeast", "South", "Southwest", "West", "Northwest"]

/-- `RoutingServer._bearing_to_direction`: `directions[round(bearing / 45) % 8]`
(Python `%` on integers, nonnegative result). -/
def bearing_to_direction (bearing : ℝ) : String :=
  directions.getD (pyRound (bearing / 45) % 8).toNat ""

/-- `route_factor.get(mode, 1.3)` in `calculate_route`. -/
def route_factor (mode : String) : ℝ :=
  if mode = "driving" then 1.3
  else if mode = "walking" then 1.2
  else if mode = "cycling" then 1.25
  else 1.3

/-- `avg_speeds.get(mode, 60)` in `calculate_route` (km/h). -/
def avg_speed (mode : String) : ℝ :=
  if mode = "driving" then 60
  else if mode = "walking" then 5
  else if mode = "cycling" then 20
  else 60

/-- One entry of the `steps` list of `calculate_route`. -/
structure Step where
  instruction : String
  distance_km : ℝ
  distance_text : String

/-- The dict returned by `calculate_route` (the two nested coordinate dicts
are flattened into four fields). -/
structure Route where
  distance_km : ℝ
  distance_text : String
  duration_minutes : ℝ
  duration_text : String
  mode : String
  steps : List Step
  start_latitude : ℝ
  start_longitude : ℝ
  end_latitude : ℝ
  end_longitude : ℝ
  bearing : ℝ
  direction : String

/-- `RoutingServer.calculate_route`. -/
def calculate_route (start_lat start_lon end_lat end_lon : ℝ) (mode : String) : Route :=
  let distance_km := calculate_distance start_lat start_lon end_lat end_lon
  let bearing := calculate_bearing start_lat start_lon end_lat end_lon
  let direction := bearing_to_direction bearing
  let estimated_distance := distance_km * route_factor mode
  let speed := avg_speed mode
  let estimated_time_hours := estimated_distance / speed
  let estimated_time_minutes := estimated_time_hours * 60
  { distance_km := round2 estimated_distance
    distance_text := decStr1 estimated_distance ++ " km"
    duration_minutes := round1 estimated_time_minutes
    duration_text :=
      if 60 ≤ estimated_time_minutes then
        toString ⌊estimated_time_minutes / 60⌋ ++ "h " ++
          toString ⌊pymod estimated_time_minutes 60⌋ ++ "m"
      else toString (pyInt estimated_time_minutes) ++ " min"
    mode := mode
    steps :=
      [⟨"Head " ++ direction, estimated_distance * 0.1, decStr1 (estimated_distance * 0.1) ++ " km"⟩,
       ⟨"Continue " ++ direction, estimated_distance * 0.8, decStr1 (estimated_distance * 0.8) ++ " km"⟩,
       ⟨"Arrive at destination", estimated_distance * 0.1, decStr1 (estimated_distance * 0.1) ++ " km"⟩]
    start_latitude := start_lat
    start_longitude := start_lon
    end_latitude := end_lat
    end_longitude := end_lon
    bearing := round1 bearing
    direction := direction }

/-- One cell of the `distance_matrix` result. -/
structure MatrixCell where
  distance_km : ℝ
  route_distance_km : ℝ
  duration_minutes : ℝ
  origin_index : ℕ
  destination_index : ℕ

/-- The dict returned by `distance_matrix` (coordinate echo dicts kept as
latitude/longitude pairs). -/
structure MatrixResult where
  origins : List (ℝ × ℝ)
  destinations : List (ℝ × ℝ)
  matrix : List (List MatrixCell)

/-- The body of the inner loop of `RoutingServer.distance_matrix`. -/
def matrixCell (origin : ℝ × ℝ) (dest : ℝ × ℝ) (i j : ℕ) : MatrixCell :=
  let distance := calculate_distance origin.1 origin.2 dest.1 dest.2
  let route_distance := distance * 1.3
  let time_minutes := (route_distance / 60) * 60
  { distance_km := round2 distance
    route_distance_km := round2 route_distance
    duration_minutes := round1 time_minutes
    origin_index := i
    destination_index := j }

/-- `RoutingServer.distance_matrix`: dense row-major matrix over
`enumerate(origins)` × `enumerate(destinations)`. -/
def distance_matrix (origins destinations : List (ℝ × ℝ)) : MatrixResult :=
  { origins := origins
    destinations := destinations
    matrix := origins.enum.map fun oi =>
      destinations.enum.map fun dj => matrixCell oi.2 dj.2 oi.1 dj.1 }

/-- A candidate location record passed to `find_nearby`: a Python dict whose
`latitude`/`longitude` keys may be absent (`dict.get` returning `None`); all
its remaining payload is abstracted by `tag`. -/
structure Loc where
  latitude : Option ℝ
  longitude : Option ℝ
  tag : ℕ

/-- A result record of `find_nearby`: `{**location, 'distance_km': ...,
'bearing': ..., 'direction': ...}`. -/
structure NearbyResult where
  loc : Loc
  distance_km : ℝ
  bearing : ℝ
  direction : String

/-- The loop body of `RoutingServer.find_nearby`: skip records missing a
coordinate, keep those with `distance <= radius_km`. -/
def nearbyEntry (center_lat center_lon radius_km : ℝ) (location : Loc) : Option NearbyResult :=
  match location.latitude, location.longitude with
  | some lat, some lon =>
    let distance := calculate_distance center_lat center_lon lat lon
    if distance ≤ radius_km then
      let bearing := calculate_bearing center_lat center_lon lat lon
      some ⟨location, round2 distance, round1 bearing, bearing_to_direction bearing⟩
    else none
  | _, _ => none

/-- Stable insertion keyed on `distance_km`: the new element goes in front of
the first existing element whose key is not smaller. -/
def insertByDistance (r : NearbyResult) : List NearbyResult → List NearbyResult
  | [] => [r]
  | x :: xs =>
    if r.distance_km ≤ x.distance_km then r :: x :: xs else x :: insertByDistance r xs

/-- Model of Python's `list.sort(key=lambda x: x['distance_km'])`: a stable
sort ascending by `distance_km` (any stable sort computes the same list). -/
def sortByDistance : List NearbyResult → List NearbyResult
  | [] => []
  | x :: xs => insertByDistance x (sortByDistance xs)

/-- `RoutingServer.find_nearby`. -/
def find_nearby (center_lat center_lon : ℝ) (locations : List Loc)
    (radius_km : ℝ) : List NearbyResult :=
  sortByDistance (locations.filterMap (nearbyEntry center_lat center_lon radius_km))

/-- Spec-side ordering for `find_nearby` output: ascending `distance_km`, and
ties keep the original input order (tracked through `Loc.tag`). -/
def sortedStable (a b : NearbyResult) : Prop :=
  a.distance_km ≤ b.distance_km ∧
    (a.distance_km = b.distance_km → a.loc.tag < b.loc.tag)

/-- Spec-side accessor: the `(i, j)` cell of a `distance_matrix` result
(out-of-range indices give a junk default). -/
def matrixCellAt (origins destinations : List (ℝ × ℝ)) (i j : ℕ) : MatrixCell :=
  ((distance_matrix origins destinations).matrix.getD i []).getD j
    (matrixCell (0, 0) (0, 0) 0 0)

end

open Real

/-! ### Basic facts about the rounding and mod primitives -/

theorem pyRound_le (x : ℝ) : (pyRound x : ℝ) ≤ x + 1 / 2 := by
  unfold pyRound
  have h0 := Int.floor_le x
  have h1 := Int.lt_floor_add_one x
  split_ifs with h h' h'' <;> push_cast <;> linarith

theorem le_pyRound (x : ℝ) : x - 1 / 2 ≤ (pyRound x : ℝ) := by
  unfold pyRound
  have h0 := Int.floor_le x
  have h1 := Int.lt_floor_add_one x
  split_ifs with h h' h'' <;> push_cast <;> linarith

theorem pyRound_mono {a b : ℝ} (hab : a ≤ b) : pyRound a ≤ pyRound b := by
  by_contra hlt
  push_neg at hlt
  have h1 : (pyRound b : ℝ) + 1 ≤ (pyRound a : ℝ) := by exact_mod_cast hlt
  have h2 := pyRound_le a
  have h3 := le_pyRound b
  have hba : a = b := by linarith
  subst hba
  omega

theorem pyRound_lt {a b : ℝ} (h : a + 1 < b) : pyRound a < pyRound b := by
  have h2 := pyRound_le a
  have h3 := le_pyRound b
  have h4 : (pyRound a : ℝ) < (pyRound b : ℝ) := by linarith
  exact_mod_cast h4

theorem pyRound_intCast (k : ℤ) : pyRound (k : ℝ) = k := by
  unfold pyRound
  simp

theorem pyRound_zero : pyRound 0 = 0 := by
  simpa using pyRound_intCast 0

theorem round1_mono {a b : ℝ} (hab : a ≤ b) : round1 a ≤ round1 b := by
  unfold round1
  have h := pyRound_mono (by linarith : a * 10 ≤ b * 10)
  have h' : ((pyRound (a * 10) : ℝ)) ≤ (pyRound (b * 10) : ℝ) := by exact_mod_cast h
  linarith

theorem round1_lt {a b : ℝ} (h : a + 1 / 10 < b) : round1 a < round1 b := by
  unfold round1
  have h' := pyRound_lt (by linarith : a * 10 + 1 < b * 10)
  have h'' : ((pyRound (a * 10) : ℝ)) < (pyRound (b * 10) : ℝ) := by exact_mod_cast h'
  linarith

theorem round2_mono {a b : ℝ} (hab : a ≤ b) : round2 a ≤ round2 b := by
  unfold round2
  have h := pyRound_mono (by linarith : a * 100 ≤ b * 100)
  have h' : ((pyRound (a * 100) : ℝ)) ≤ (pyRound (b * 100) : ℝ) := by exact_mod_cast h
  linarith

theorem round2_le (x : ℝ) : round2 x ≤ x + 1 / 200 := by
  unfold round2
  have h := pyRound_le (x * 100)
  linarith

theorem round1_zero : round1 0 = 0 := by
  unfold round1
  norm_num [pyRound_zero]

theorem round2_zero : round2 0 = 0 := by
  unfold round2
  norm_num [pyRound_zero]

theorem pymod_eq_fract (a : ℝ) {b : ℝ} (hb : 0 < b) :
    pymod a b = b * Int.fract (a / b) := by
  unfold pymod Int.fract
  field_simp

theorem pymod_nonneg (a : ℝ) {b : ℝ} (hb : 0 < b) : 0 ≤ pymod a b := by
  rw [pymod_eq_fract a hb]
  exact mul_nonneg hb.le (Int.fract_nonneg _)

theorem pymod_lt (a : ℝ) {b : ℝ} (hb : 0 < b) : pymod a b < b := by
  rw [pymod_eq_fract a hb]
  calc b * Int.fract (a / b) < b * 1 := (mul_lt_mul_left hb).mpr (Int.fract_lt_one _)
    _ = b := mul_one b

/-! ### Basic facts about `atan2` -/

theorem atan2_nonneg {y x : ℝ} (hy : 0 ≤ y) (hx : 0 ≤ x) : 0 ≤ atan2 y x := by
  rcases eq_or_lt_of_le hx with hx0 | hx0
  · have hxx : x = 0 := hx0.symm
    subst hxx
    rcases eq_or_lt_of_le hy with hy0 | hy0
    · have hyy : y = 0 := hy0.symm
      subst hyy
      simp [atan2]
    · have hp : 0 ≤ π / 2 := by positivity
      simp [atan2, lt_irrefl, hy0, hp]
  · rw [atan2, if_pos hx0]
    simpa using Real.arctan_strictMono.monotone (div_nonneg hy hx0.le)

theorem atan2_pos {y x : ℝ} (hy : 0 < y) (hx : 0 ≤ x) : 0 < atan2 y x := by
  rcases eq_or_lt_of_le hx with hx0 | hx0
  · have hxx : x = 0 := hx0.symm
    subst hxx
    have hp : 0 < π / 2 := by positivity
    simp [atan2, lt_irrefl, hy, hp]
  · rw [atan2, if_pos hx0]
    simpa using Real.arctan_strictMono (div_pos hy hx0)

theorem atan2_zero_of_nonneg {x : ℝ} (hx : 0 ≤ x) : atan2 0 x = 0 := by
  rcases eq_or_lt_of_le hx with hx0 | hx0
  · have hxx : x = 0 := hx0.symm
    subst hxx
    simp [atan2]
  · rw [atan2, if_pos hx0]
    simp

theorem atan2_sin_cos {t : ℝ} (h0 : 0 ≤ t) (h1 : t ≤ π / 2) :
    atan2 (sin t) (cos t) = t := by
  rcases eq_or_lt_of_le h1 with he | hlt
  · subst he
    simp [atan2, lt_irrefl, Real.pi_pos]
  · have hc : 0 < cos t := by
      apply Real.cos_pos_of_mem_Ioo
      constructor
      · linarith [Real.pi_pos]
      · exact hlt
    rw [atan2, if_pos hc, ← Real.tan_eq_sin_div_cos]
    exact Real.arctan_tan (by linarith [Real.pi_pos]) hlt

/-! ### Facts about the Haversine distance -/

theorem calculate_distance_eq (lat1 lon1 lat2 lon2 : ℝ) :
    calculate_distance lat1 lon1 lat2 lon2 =
      6371 * (2 * atan2
        (sqrt (sin (radians (lat2 - lat1) / 2) ^ 2 +
          cos (radians lat1) * cos (radians lat2) * sin (radians (lon2 - lon1) / 2) ^ 2))
        (sqrt (1 - (sin (radians (lat2 - lat1) / 2) ^ 2 +
          cos (radians lat1) * cos (radians lat2) * sin (radians (lon2 - lon1) / 2) ^ 2)))) :=
  rfl

theorem calculate_distance_self (lat lon : ℝ) : calculate_distance lat lon lat lon = 0 := by
  rw [calculate_distance_eq]
  have e1 : radians (lat - lat) = 0 := by simp [radians]
  have e2 : radians (lon - lon) = 0 := by simp [radians]
  rw [e1, e2]
  norm_num [atan2_zero_of_nonneg]

theorem calculate_distance_symm (lat1 lon1 lat2 lon2 : ℝ) :
    calculate_distance lat1 lon1 lat2 lon2 = calculate_distance lat2 lon2 lat1 lon1 := by
  have hs : ∀ u v : ℝ, sin (radians (u - v) / 2) ^ 2 = sin (radians (v - u) / 2) ^ 2 := by
    intro u v
    have hneg : radians (u - v) / 2 = -(radians (v - u) / 2) := by
      unfold radians
      ring
    rw [hneg, Real.sin_neg]
    ring
  have key : sin (radians (lat2 - lat1) / 2) ^ 2 +
        cos (radians lat1) * cos (radians lat2) * sin (radians (lon2 - lon1) / 2) ^ 2 =
      sin (radians (lat1 - lat2) / 2) ^ 2 +
        cos (radians lat2) * cos (radians lat1) * sin (radians (lon1 - lon2) / 2) ^ 2 := by
    rw [hs lat2 lat1, hs lon2 lon1]
    ring
  rw [calculate_distance_eq, calculate_distance_eq, key]

theorem calculate_distance_nonneg (lat1 lon1 lat2 lon2 : ℝ) :
    0 ≤ calculate_distance lat1 lon1 lat2 lon2 := by
  rw [calculate_distance_eq]
  have h := atan2_nonneg (Real.sqrt_nonneg
    (sin (radians (lat2 - lat1) / 2) ^ 2 +
      cos (radians lat1) * cos (radians lat2) * sin (radians (lon2 - lon1) / 2) ^ 2))
    (Real.sqrt_nonneg (1 - (sin (radians (lat2 - lat1) / 2) ^ 2 +
      cos (radians lat1) * cos (radians lat2) * sin (radians (lon2 - lon1) / 2) ^ 2)))
  linarith

/-- Along the equator the Haversine formula reduces to the exact arc length:
`R * radians lon` for `lon ∈ [0, 180]`. -/
theorem calculate_distance_equator {lon : ℝ} (h0 : 0 ≤ lon) (h1 : lon ≤ 180) :
    calculate_distance 0 0 0 lon = 6371 * radians lon := by
  have hpi := Real.pi_pos
  have hθ0 : 0 ≤ radians lon / 2 := by
    unfold radians
    positivity
  have hθ1 : radians lon / 2 ≤ π / 2 := by
    unfold radians
    nlinarith
  have e1 : radians ((0:ℝ) - 0) = 0 := by simp [radians]
  have e2 : lon - 0 = lon := by ring
  have e3 : cos (radians 0) = 1 := by simp [radians]
  rw [calculate_distance_eq, e1, e2, e3]
  have e4 : sin ((0:ℝ) / 2) ^ 2 + 1 * 1 * sin (radians lon / 2) ^ 2 =
      sin (radians lon / 2) ^ 2 := by
    norm_num [Real.sin_zero]
  rw [e4]
  rw [Real.sqrt_sq (Real.sin_nonneg_of_nonneg_of_le_pi hθ0 (by linarith))]
  rw [← Real.cos_sq']
  rw [Real.sqrt_sq (Real.cos_nonneg_of_mem_Icc ⟨by linarith, hθ1⟩)]
  rw [atan2_sin_cos hθ0 hθ1]
  ring

/-- Positivity of the Haversine distance away from the poles and the
antimeridian alias. -/
theorem calculate_distance_pos {lat1 lon1 lat2 lon2 : ℝ}
    (hlat1 : |lat1| < 90) (hlat2 : |lat2| < 90)
    (hlon : |lon1 - lon2| < 360)
    (hne : (lat1, lon1) ≠ (lat2, lon2)) :
    0 < calculate_distance lat1 lon1 lat2 lon2 := by
  have hpi := Real.pi_pos
  obtain ⟨hl1a, hl1b⟩ := abs_lt.mp hlat1
  obtain ⟨hl2a, hl2b⟩ := abs_lt.mp hlat2
  obtain ⟨hda, hdb⟩ := abs_lt.mp hlon
  have hc1 : 0 < cos (radians lat1) := by
    apply Real.cos_pos_of_mem_Ioo
    constructor
    · unfold radians
      nlinarith
    · unfold radians
      nlinarith
  have hc2 : 0 < cos (radians lat2) := by
    apply Real.cos_pos_of_mem_Ioo
    constructor
    · unfold radians
      nlinarith
    · unfold radians
      nlinarith
  have hA : 0 < sin (radians (lat2 - lat1) / 2) ^ 2 +
      cos (radians lat1) * cos (radians lat2) * sin (radians (lon2 - lon1) / 2) ^ 2 := by
    rcases eq_or_ne lat1 lat2 with hlat | hlat
    · have hlonne : lon1 ≠ lon2 := by
        intro h
        exact hne (by rw [hlat, h])
      have hu1 : -π < radians (lon2 - lon1) / 2 := by
        unfold radians
        nlinarith
      have hu2 : radians (lon2 - lon1) / 2 < π := by
        unfold radians
        nlinarith
      have hune : radians (lon2 - lon1) / 2 ≠ 0 := by
        unfold radians
        intro h
        have h2 : (lon2 - lon1) * π = 0 := by linarith
        rcases mul_eq_zero.mp h2 with h3 | h3
        · exact hlonne (by linarith)
        · linarith
      have hsne : sin (radians (lon2 - lon1) / 2) ≠ 0 := by
        rw [ne_eq, Real.sin_eq_zero_iff_of_lt_of_lt hu1 hu2]
        exact hune
      have h1 : 0 < sin (radians (lon2 - lon1) / 2) ^ 2 := pow_two_pos_of_ne_zero hsne
      have h2 : 0 ≤ sin (radians (lat2 - lat1) / 2) ^ 2 := sq_nonneg _
      have h3 := mul_pos (mul_pos hc1 hc2) h1
      linarith
    · have ht1 : -π < radians (lat2 - lat1) / 2 := by
        unfold radians
        nlinarith
      have ht2 : radians (lat2 - lat1) / 2 < π := by
        unfold radians
        nlinarith
      have htne : radians (lat2 - lat1) / 2 ≠ 0 := by
        unfold radians
        intro h
        have h2 : (lat2 - lat1) * π = 0 := by linarith
        rcases mul_eq_zero.mp h2 with h3 | h3
        · exact hlat (by linarith)
        · linarith
      have hsne : sin (radians (lat2 - lat1) / 2) ≠ 0 := by
        rw [ne_eq, Real.sin_eq_zero_iff_of_lt_of_lt ht1 ht2]
        exact htne
      have h1 : 0 < sin (radians (lat2 - lat1) / 2) ^ 2 := pow_two_pos_of_ne_zero hsne
      have h2 : 0 ≤ sin (radians (lon2 - lon1) / 2) ^ 2 := sq_nonneg _
      have h3 := mul_nonneg (mul_nonneg hc1.le hc2.le) h2
      linarith
  rw [calculate_distance_eq]
  have hy : 0 < sqrt (sin (radians (lat2 - lat1) / 2) ^ 2 +
      cos (radians lat1) * cos (radians lat2) * sin (radians (lon2 - lon1) / 2) ^ 2) :=
    Real.sqrt_pos.mpr hA
  have hx : (0:ℝ) ≤ sqrt (1 - (sin (radians (lat2 - lat1) / 2) ^ 2 +
      cos (radians lat1) * cos (radians lat2) * sin (radians (lon2 - lon1) / 2) ^ 2)) :=
    Real.sqrt_nonneg _
  have h := atan2_pos hy hx
  linarith

/-! ### Facts about the bearing -/

theorem calculate_bearing_eq (lat1 lon1 lat2 lon2 : ℝ) :
    calculate_bearing lat1 lon1 lat2 lon2 =
      pymod (degrees (atan2 (sin (radians (lon2 - lon1)) * cos (radians lat2))
        (cos (radians lat1) * sin (radians lat2) -
          sin (radians lat1) * cos (radians lat2) * cos (radians (lon2 - lon1)))) + 360) 360 :=
  rfl

theorem calculate_bearing_nonneg (lat1 lon1 lat2 lon2 : ℝ) :
    0 ≤ calculate_bearing lat1 lon1 lat2 lon2 := by
  rw [calculate_bearing_eq]
  exact pymod_nonneg _ (by norm_num)

theorem calculate_bearing_lt_360 (lat1 lon1 lat2 lon2 : ℝ) :
    calculate_bearing lat1 lon1 lat2 lon2 < 360 := by
  rw [calculate_bearing_eq]
  exact pymod_lt _ (by norm_num)

theorem calculate_bearing_self (lat lon : ℝ) : calculate_bearing lat lon lat lon = 0 := by
  rw [calculate_bearing_eq]
  have e0 : radians (lon - lon) = 0 := by simp [radians]
  rw [e0]
  have ex : sin (0:ℝ) * cos (radians lat) = 0 := by simp
  have ey : cos (radians lat) * sin (radians lat) -
      sin (radians lat) * cos (radians lat) * cos (0:ℝ) = 0 := by
    rw [Real.cos_zero, mul_one]
    ring
  rw [ex, ey, atan2_zero_of_nonneg le_rfl]
  have ed : degrees 0 = 0 := by simp [degrees]
  rw [ed]
  unfold pymod
  norm_num

/-! ### Concrete distance evaluations (via the equator arc length) -/

theorem pyRound_eq_add_one_of_between {x : ℝ} {k : ℤ} (h1 : (k:ℝ) + 1 / 2 < x)
    (h2 : x < (k:ℝ) + 1) : pyRound x = k + 1 := by
  have hf : ⌊x⌋ = k := by
    rw [Int.floor_eq_iff]
    constructor
    · linarith
    · linarith
  have hc1 : ¬ (x - (⌊x⌋:ℝ) < 1 / 2) := by
    rw [hf]
    linarith
  have hc2 : 1 / 2 < x - (⌊x⌋:ℝ) := by
    rw [hf]
    linarith
  unfold pyRound
  rw [if_neg hc1, if_pos hc2, hf]

/-- `13 / 2 < 100 * d < 167 / 25` for the distance from `(0,0)` to
`(0, 0.0006)`: pinned using the 6-digit bounds on `π`. -/
theorem dist_small_bounds :
    13 / 2 < calculate_distance 0 0 0 (3 / 5000) * 100 ∧
      calculate_distance 0 0 0 (3 / 5000) * 100 < 167 / 25 := by
  rw [calculate_distance_equator (by norm_num) (by norm_num)]
  unfold radians
  constructor
  · nlinarith [Real.pi_gt_d6]
  · nlinarith [Real.pi_lt_d6]

theorem dist_small_round2 : round2 (calculate_distance 0 0 0 (3 / 5000)) = 7 / 100 := by
  obtain ⟨h1, h2⟩ := dist_small_bounds
  unfold round2
  have h : pyRound (calculate_distance 0 0 0 (3 / 5000) * 100) = 7 := by
    have := pyRound_eq_add_one_of_between
      (x := calculate_distance 0 0 0 (3 / 5000) * 100) (k := 6)
      (by push_cast; linarith) (by push_cast; linarith)
    simpa using this
  rw [h]
  norm_num

theorem dist_equator_90 : calculate_distance 0 0 0 90 = 6371 * (90 * π / 180) := by
  rw [calculate_distance_equator (by norm_num) (by norm_num)]
  rfl

theorem dist_equator_90_large : 1 / 10 ≤ calculate_distance 0 0 0 90 := by
  rw [dist_equator_90]
  nlinarith [Real.pi_gt_three]

/-! ### `find_nearby`: membership, sortedness, stability -/

theorem mem_insertByDistance {r x : NearbyResult} {l : List NearbyResult} :
    x ∈ insertByDistance r l ↔ x = r ∨ x ∈ l := by
  induction l with
  | nil => simp [insertByDistance]
  | cons y ys ih =>
    unfold insertByDistance
    split_ifs with h
    · simp [List.mem_cons]
    · simp only [List.mem_cons, ih]
      tauto

theorem mem_sortByDistance {x : NearbyResult} {l : List NearbyResult} :
    x ∈ sortByDistance l ↔ x ∈ l := by
  induction l with
  | nil => simp [sortByDistance]
  | cons y ys ih => simp [sortByDistance, mem_insertByDistance, ih, List.mem_cons]

theorem insertByDistance_pairwise {r : NearbyResult} {l : List NearbyResult}
    (hl : l.Pairwise sortedStable)
    (htag : ∀ y ∈ l, r.loc.tag < y.loc.tag) :
    (insertByDistance r l).Pairwise sortedStable := by
  induction l with
  | nil => simp [insertByDistance, List.pairwise_cons]
  | cons y ys ih =>
    rw [List.pairwise_cons] at hl
    obtain ⟨hy, hys⟩ := hl
    unfold insertByDistance
    split_ifs with h
    · rw [List.pairwise_cons]
      refine ⟨?_, ?_⟩
      · intro z hz
        rcases List.mem_cons.mp hz with rfl | hz'
        · exact ⟨h, fun _ => htag z (List.mem_cons_self _ _)⟩
        · refine ⟨le_trans h (hy z hz').1, fun _ => htag z (List.mem_cons_of_mem _ hz')⟩
      · rw [List.pairwise_cons]
        exact ⟨hy, hys⟩
    · rw [List.pairwise_cons]
      refine ⟨?_, ih hys fun z hz => htag z (List.mem_cons_of_mem _ hz)⟩
      intro z hz
      rcases mem_insertByDistance.mp hz with rfl | hz'
      · have hlt : y.distance_km < z.distance_km := not_le.mp h
        exact ⟨hlt.le, fun he => absurd he (ne_of_lt hlt)⟩
      · exact hy z hz'

theorem sortByDistance_pairwise {l : List NearbyResult}
    (hl : l.Pairwise fun a b => a.loc.tag < b.loc.tag) :
    (sortByDistance l).Pairwise sortedStable := by
  induction l with
  | nil => simp [sortByDistance]
  | cons y ys ih =>
    rw [List.pairwise_cons] at hl
    obtain ⟨hy, hys⟩ := hl
    unfold sortByDistance
    exact insertByDistance_pairwise (ih hys) fun z hz => hy z (mem_sortByDistance.mp hz)

theorem nearbyEntry_eq_some {c1 c2 rad : ℝ} {l : Loc} {r : NearbyResult}
    (h : nearbyEntry c1 c2 rad l = some r) :
    ∃ lat lon, l.latitude = some lat ∧ l.longitude = some lon ∧
      calculate_distance c1 c2 lat lon ≤ rad ∧
      r = ⟨l, round2 (calculate_distance c1 c2 lat lon),
            round1 (calculate_bearing c1 c2 lat lon),
            bearing_to_direction (calculate_bearing c1 c2 lat lon)⟩ := by
  unfold nearbyEntry at h
  rcases hla : l.latitude with _ | lat <;> rw [hla] at h
  · simp at h
  rcases hlo : l.longitude with _ | lon <;> rw [hlo] at h
  · simp at h
  simp only at h
  split_ifs at h with hd
  exact ⟨lat, lon, rfl, rfl, hd, (Option.some_injective _ h).symm⟩

theorem nearbyEntry_keep {c1 c2 rad : ℝ} {l : Loc} {lat lon : ℝ}
    (hla : l.latitude = some lat) (hlo : l.longitude = some lon)
    (hd : calculate_distance c1 c2 lat lon ≤ rad) :
    nearbyEntry c1 c2 rad l =
      some ⟨l, round2 (calculate_distance c1 c2 lat lon),
        round1 (calculate_bearing c1 c2 lat lon),
        bearing_to_direction (calculate_bearing c1 c2 lat lon)⟩ := by
  unfold nearbyEntry
  rw [hla, hlo]
  simp only [if_pos hd]

theorem mem_find_nearby {c1 c2 rad : ℝ} {locs : List Loc} {r : NearbyResult} :
    r ∈ find_nearby c1 c2 locs rad ↔
      ∃ l ∈ locs, nearbyEntry c1 c2 rad l = some r := by
  unfold find_nearby
  rw [mem_sortByDistance]
  exact List.mem_filterMap

theorem filterMap_tags {c1 c2 rad : ℝ} {locs : List Loc}
    (h : locs.Pairwise fun a b => a.tag < b.tag) :
    (locs.filterMap (nearbyEntry c1 c2 rad)).Pairwise
      fun a b => a.loc.tag < b.loc.tag := by
  rw [List.pairwise_filterMap]
  refine h.imp ?_
  intro a b hab x hx y hy
  obtain ⟨lata, lona, _, _, _, rfl⟩ := nearbyEntry_eq_some hx
  obtain ⟨latb, lonb, _, _, _, rfl⟩ := nearbyEntry_eq_some hy
  simpa using hab

theorem find_nearby_pairwise {c1 c2 rad : ℝ} {locs : List Loc}
    (h : locs.Pairwise fun a b => a.tag < b.tag) :
    (find_nearby c1 c2 locs rad).Pairwise sortedStable := by
  unfold find_nearby
  exact sortByDistance_pairwise (filterMap_tags h)

/-! ### Direction-quantizer evaluations -/

theorem bearing_dir_of_int {b : ℝ} {k : ℤ} (h : b / 45 = (k:ℝ)) :
    bearing_to_direction b = directions.getD (k % 8).toNat "" := by
  unfold bearing_to_direction
  rw [h, pyRound_intCast]

theorem pyRound_half : pyRound ((1:ℝ) / 2) = 0 := by
  unfold pyRound
  norm_num

theorem pyRound_three_halves : pyRound ((3:ℝ) / 2) = 2 := by
  unfold pyRound
  norm_num

theorem bearing_dir_zero : bearing_to_direction 0 = "North" := by
  rw [bearing_dir_of_int (k := 0) (by norm_num)]
  rfl

/-! ### Pole and antimeridian degeneracies of the Haversine formula -/

theorem calculate_distance_pole (lon1 lon2 : ℝ) :
    calculate_distance 90 lon1 90 lon2 = 0 := by
  rw [calculate_distance_eq]
  have e1 : radians ((90:ℝ) - 90) = 0 := by norm_num [radians]
  have e2 : cos (radians 90) = 0 := by
    have h : radians (90:ℝ) = π / 2 := by
      unfold radians
      ring
    rw [h, Real.cos_pi_div_two]
  rw [e1, e2]
  norm_num [atan2_zero_of_nonneg]

theorem calculate_distance_antimeridian :
    calculate_distance 0 (-180) 0 180 = 0 := by
  rw [calculate_distance_eq]
  have e1 : radians ((0:ℝ) - 0) = 0 := by norm_num [radians]
  have e2 : radians ((180:ℝ) - -180) = 2 * π := by
    unfold radians
    ring
  rw [e1, e2]
  have e3 : sin (2 * π / 2) = 0 := by
    rw [show 2 * π / 2 = π by ring, Real.sin_pi]
  rw [e3]
  norm_num [radians, atan2_zero_of_nonneg]

/-! ### `calculate_route` accessors and mode handling -/

theorem calculate_route_distance_km (s1 s2 e1 e2 : ℝ) (mode : String) :
    (calculate_route s1 s2 e1 e2 mode).distance_km =
      round2 (calculate_distance s1 s2 e1 e2 * route_factor mode) := rfl

theorem calculate_route_duration_minutes (s1 s2 e1 e2 : ℝ) (mode : String) :
    (calculate_route s1 s2 e1 e2 mode).duration_minutes =
      round1 (calculate_distance s1 s2 e1 e2 * route_factor mode / avg_speed mode * 60) := rfl

theorem calculate_route_mode (s1 s2 e1 e2 : ℝ) (mode : String) :
    (calculate_route s1 s2 e1 e2 mode).mode = mode := rfl

theorem route_factor_eval :
    route_factor "driving" = 1.3 ∧ route_factor "walking" = 1.2 ∧
      route_factor "cycling" = 1.25 := by
  refine ⟨?_, ?_, ?_⟩ <;> simp [route_factor]

theorem avg_speed_eval :
    avg_speed "driving" = 60 ∧ avg_speed "walking" = 5 ∧ avg_speed "cycling" = 20 := by
  refine ⟨?_, ?_, ?_⟩ <;> simp [avg_speed]

theorem route_factor_default {mode : String} (h1 : mode ≠ "driving")
    (h2 : mode ≠ "walking") (h3 : mode ≠ "cycling") : route_factor mode = 1.3 := by
  unfold route_factor
  rw [if_neg h1, if_neg h2, if_neg h3]

theorem avg_speed_default {mode : String} (h1 : mode ≠ "driving")
    (h2 : mode ≠ "walking") (h3 : mode ≠ "cycling") : avg_speed mode = 60 := by
  unfold avg_speed
  rw [if_neg h1, if_neg h2, if_neg h3]

/-! ### `distance_matrix` access -/

theorem distance_matrix_length (origins destinations : List (ℝ × ℝ)) :
    (distance_matrix origins destinations).matrix.length = origins.length := by
  simp [distance_matrix]

theorem distance_matrix_getD_row {origins destinations : List (ℝ × ℝ)} {i : ℕ}
    (hi : i < origins.length) :
    (distance_matrix origins destinations).matrix.getD i [] =
      destinations.enum.map fun dj =>
        matrixCell (origins.getD i (0, 0)) dj.2 i dj.1 := by
  have hg : origins.getD i (0, 0) = origins[i] := by
    rw [List.getD_eq_getElem?_getD, List.getElem?_eq_getElem hi]
    rfl
  have hlen : i < ((distance_matrix origins destinations).matrix).length := by
    rw [distance_matrix_length]
    exact hi
  rw [hg, List.getD_eq_getElem?_getD, List.getElem?_eq_getElem hlen]
  simp [distance_matrix]

theorem distance_matrix_row_length {origins destinations : List (ℝ × ℝ)} {i : ℕ}
    (hi : i < origins.length) :
    ((distance_matrix origins destinations).matrix.getD i []).length =
      destinations.length := by
  rw [distance_matrix_getD_row hi]
  simp

theorem distance_matrix_getD_cell {origins destinations : List (ℝ × ℝ)} {i j : ℕ}
    (hi : i < origins.length) (hj : j < destinations.length) :
    ((distance_matrix origins destinations).matrix.getD i []).getD j
        (matrixCell (0, 0) (0, 0) 0 0) =
      matrixCell (origins.getD i (0, 0)) (destinations.getD j (0, 0)) i j := by
  rw [distance_matrix_getD_row hi]
  have hg : destinations.getD j (0, 0) = destinations[j] := by
    rw [List.getD_eq_getElem?_getD, List.getElem?_eq_getElem hj]
    rfl
  have hlen : j < (destinations.enum.map fun dj =>
      matrixCell (origins.getD i (0, 0)) dj.2 i dj.1).length := by
    simpa using hj
  rw [hg, List.getD_eq_getElem?_getD, List.getElem?_eq_getElem hlen]
  simp

/-! ### Concrete `find_nearby` evaluations -/

theorem find_nearby_small_eval :
    find_nearby 0 0 [⟨some 0, some (3 / 5000), 0⟩] (167 / 2500) =
      [⟨⟨some 0, some (3 / 5000), 0⟩, 7 / 100,
        round1 (calculate_bearing 0 0 0 (3 / 5000)),
        bearing_to_direction (calculate_bearing 0 0 0 (3 / 5000))⟩] := by
  have hd : calculate_distance 0 0 0 (3 / 5000) ≤ 167 / 2500 := by
    obtain ⟨_, h2⟩ := dist_small_bounds
    linarith
  have hent : nearbyEntry 0 0 (167 / 2500) ⟨some 0, some (3 / 5000), 0⟩ =
      some ⟨⟨some 0, some (3 / 5000), 0⟩,
        round2 (calculate_distance 0 0 0 (3 / 5000)),
        round1 (calculate_bearing 0 0 0 (3 / 5000)),
        bearing_to_direction (calculate_bearing 0 0 0 (3 / 5000))⟩ :=
    nearbyEntry_keep rfl rfl hd
  rw [dist_small_round2] at hent
  unfold find_nearby
  simp [hent, sortByDistance, insertByDistance]

theorem find_nearby_self_eval :
    find_nearby 0 0 [⟨some 0, some 0, 5⟩] 0 =
      [⟨⟨some 0, some 0, 5⟩, 0, 0, "North"⟩] := by
  have hd : calculate_distance 0 0 0 0 ≤ 0 := le_of_eq (calculate_distance_self 0 0)
  have hent : nearbyEntry 0 0 0 ⟨some 0, some 0, 5⟩ =
      some ⟨⟨some 0, some 0, 5⟩, round2 (calculate_distance 0 0 0 0),
        round1 (calculate_bearing 0 0 0 0),
        bearing_to_direction (calculate_bearing 0 0 0 0)⟩ :=
    nearbyEntry_keep rfl rfl hd
  rw [calculate_distance_self, calculate_bearing_self, round2_zero, round1_zero,
    bearing_dir_zero] at hent
  unfold find_nearby
  simp [hent, sortByDistance, insertByDistance]

/-! ### Claim theorems -/

/-- C1: for all coordinate pairs A, B the great-circle distance is symmetric,
`distance(A,B) = distance(B,A)`, and for identical points
`distance(A,A) = 0` exactly. -/
theorem C1_distance_symm_and_self (lat1 lon1 lat2 lon2 : ℝ) :
    calculate_distance lat1 lon1 lat2 lon2 = calculate_distance lat2 lon2 lat1 lon1 ∧
      calculate_distance lat1 lon1 lat1 lon1 = 0 :=
  ⟨calculate_distance_symm lat1 lon1 lat2 lon2, calculate_distance_self lat1 lon1⟩

/-- C2 as stated is false: the two pole coordinates `(90, 0)` and `(90, 10)`
are distinct and within latitude `[-90, 90]` / longitude `[-180, 180]`, yet
their Haversine distance is exactly `0`, not `> 0` (both latitude radians have
`cos = 0`); the antimeridian alias `(0, -180)`, `(0, 180)` fails the same way. -/
theorem C2_counterexample :
    ((90:ℝ), (0:ℝ)) ≠ ((90:ℝ), (10:ℝ)) ∧
      (-90 ≤ (90:ℝ) ∧ (90:ℝ) ≤ 90 ∧ -180 ≤ (0:ℝ) ∧ (0:ℝ) ≤ 180 ∧
        -180 ≤ (10:ℝ) ∧ (10:ℝ) ≤ 180) ∧
      ¬ (0 < calculate_distance 90 0 90 10) ∧
      calculate_distance 90 0 90 10 = 0 ∧
      calculate_distance 0 (-180) 0 180 = 0 := by
  refine ⟨?_, by norm_num, ?_, calculate_distance_pole 0 10,
    calculate_distance_antimeridian⟩
  · norm_num [Prod.ext_iff]
  · rw [calculate_distance_pole 0 10]
    exact lt_irrefl 0

/-- C2 (amended): for any two distinct coordinates whose latitudes lie
strictly inside `(-90, 90)` and whose longitudes lie in `[-180, 180]` with
`|lon1 - lon2| < 360` (excluding the poles and the ±180° antimeridian alias,
where distinct coordinate pairs denote the same point), the great-circle
distance is strictly positive. -/
theorem C2_amended_distance_pos {lat1 lon1 lat2 lon2 : ℝ}
    (h1 : -90 < lat1) (h2 : lat1 < 90) (h3 : -90 < lat2) (h4 : lat2 < 90)
    (_h5 : -180 ≤ lon1) (_h6 : lon1 ≤ 180) (_h7 : -180 ≤ lon2) (_h8 : lon2 ≤ 180)
    (h9 : |lon1 - lon2| < 360)
    (hne : (lat1, lon1) ≠ (lat2, lon2)) :
    0 < calculate_distance lat1 lon1 lat2 lon2 :=
  calculate_distance_pos (abs_lt.mpr ⟨by linarith, h2⟩)
    (abs_lt.mpr ⟨by linarith, h4⟩) h9 hne

theorem C2_witness : 0 < calculate_distance 0 0 0 1 :=
  C2_amended_distance_pos (by norm_num) (by norm_num) (by norm_num) (by norm_num)
    (by norm_num) (by norm_num) (by norm_num) (by norm_num) (by norm_num)
    (by norm_num [Prod.ext_iff])

/-- C3 as stated is false: with center `(0, 0)`, the single candidate at
`(0, 0.0006)` and radius `R = 0.0668` km, the candidate is kept (its true
distance ≈ 0.066717 km is ≤ R) but the attached `distance_km` field is
`round(distance, 2) = 0.07 > R`. -/
theorem C3_counterexample :
    (find_nearby 0 0 [⟨some 0, some (3 / 5000), 0⟩] (167 / 2500)).map
        NearbyResult.distance_km = [7 / 100] ∧
      ¬ ((7:ℝ) / 100 ≤ 167 / 2500) := by
  constructor
  · rw [find_nearby_small_eval]
    rfl
  · norm_num

/-- C3 (amended): every record returned by `find_nearby` carries both
coordinate fields (records lacking a latitude or longitude are skipped
without error), its true distance from the center is ≤ R (the boundary is
inclusive: a candidate at distance exactly R is kept, witnessed by the last
conjunct), and its attached `distance_km` field — that distance rounded to 2
decimals — can exceed R only by the rounding slack `1/200 = 0.005`. -/
theorem C3_amended_find_nearby_radius {clat clon R : ℝ} {locs : List Loc}
    {r : NearbyResult} (hr : r ∈ find_nearby clat clon locs R)
    {l : Loc} {lat lon : ℝ} (hl : l ∈ locs)
    (hlat : l.latitude = some lat) (hlon : l.longitude = some lon)
    (hdist : calculate_distance clat clon lat lon ≤ R) :
    r.loc.latitude.isSome = true ∧ r.loc.longitude.isSome = true ∧
      calculate_distance clat clon (r.loc.latitude.getD 0) (r.loc.longitude.getD 0) ≤ R ∧
      r.distance_km =
        round2 (calculate_distance clat clon (r.loc.latitude.getD 0)
          (r.loc.longitude.getD 0)) ∧
      r.distance_km ≤ R + 1 / 200 ∧
      l ∈ (find_nearby clat clon locs R).map NearbyResult.loc := by
  obtain ⟨l', hl', hent⟩ := mem_find_nearby.mp hr
  obtain ⟨lat', lon', hla', hlo', hd', rfl⟩ := nearbyEntry_eq_some hent
  refine ⟨by rw [hla']; rfl, by rw [hlo']; rfl, ?_, ?_, ?_, ?_⟩
  · simp only [hla', hlo', Option.getD_some]
    exact hd'
  · simp only [hla', hlo', Option.getD_some]
  · have h1 := round2_le (calculate_distance clat clon lat' lon')
    simp only
    linarith
  · have hkeep := nearbyEntry_keep hlat hlon hdist
    have hmem : (⟨l, round2 (calculate_distance clat clon lat lon),
        round1 (calculate_bearing clat clon lat lon),
        bearing_to_direction (calculate_bearing clat clon lat lon)⟩ : NearbyResult) ∈
        find_nearby clat clon locs R :=
      mem_find_nearby.mpr ⟨l, hl, hkeep⟩
    exact List.mem_map.mpr ⟨_, hmem, rfl⟩

theorem C3_witness :
    (⟨⟨some 0, some 0, 5⟩, 0, 0, "North"⟩ : NearbyResult).loc.latitude.isSome = true ∧
      (⟨⟨some 0, some 0, 5⟩, 0, 0, "North"⟩ : NearbyResult).loc.longitude.isSome = true ∧
      calculate_distance 0 0
        ((⟨⟨some 0, some 0, 5⟩, 0, 0, "North"⟩ : NearbyResult).loc.latitude.getD 0)
        ((⟨⟨some 0, some 0, 5⟩, 0, 0, "North"⟩ : NearbyResult).loc.longitude.getD 0) ≤ 0 ∧
      (⟨⟨some 0, some 0, 5⟩, 0, 0, "North"⟩ : NearbyResult).distance_km =
        round2 (calculate_distance 0 0
          ((⟨⟨some 0, some 0, 5⟩, 0, 0, "North"⟩ : NearbyResult).loc.latitude.getD 0)
          ((⟨⟨some 0, some 0, 5⟩, 0, 0, "North"⟩ : NearbyResult).loc.longitude.getD 0)) ∧
      (⟨⟨some 0, some 0, 5⟩, 0, 0, "North"⟩ : NearbyResult).distance_km ≤ 0 + 1 / 200 ∧
      (⟨some 0, some 0, 5⟩ : Loc) ∈
        (find_nearby 0 0 [⟨some 0, some 0, 5⟩] 0).map NearbyResult.loc :=
  C3_amended_find_nearby_radius
    (by rw [find_nearby_self_eval]; exact List.mem_cons_self _ _)
    (List.mem_cons_self _ _) rfl rfl
    (le_of_eq (calculate_distance_self 0 0))

/-- C4: the list returned by `find_nearby` is sorted ascending by the
attached `distance_km` field, and the sort is stable: records with equal
`distance_km` keep their original relative input order (input order is
tracked by strictly increasing `Loc.tag` values). -/
theorem C4_find_nearby_sorted_stable {clat clon R : ℝ} {locs : List Loc}
    (htags : locs.Pairwise fun a b => a.tag < b.tag) :
    (find_nearby clat clon locs R).Pairwise sortedStable :=
  find_nearby_pairwise htags

theorem C4_witness :
    (find_nearby 0 0 [⟨some 0, some 0, 0⟩, ⟨some 0, some 0, 1⟩] 1).Pairwise
      sortedStable :=
  C4_find_nearby_sorted_stable (by norm_num [List.pairwise_cons])

/-- C5 as stated is false: for the identical start/end pair `(0,0) → (0,0)`
all three modes produce `duration_minutes = 0.0`, so walking duration is not
strictly greater than cycling duration. -/
theorem C5_counterexample :
    ¬ ((calculate_route 0 0 0 0 "cycling").duration_minutes <
        (calculate_route 0 0 0 0 "walking").duration_minutes) := by
  rw [calculate_route_duration_minutes, calculate_route_duration_minutes,
    calculate_distance_self]
  norm_num

/-- C5 (amended): on every coordinate pair the rounded `duration_minutes`
satisfy walking ≥ cycling ≥ driving; the inequalities are strict whenever the
great-circle distance is at least 0.1 km (for identical or extremely close
endpoints the 0.1-minute rounding of durations can tie). -/
theorem C5_amended_duration_order (s1 s2 e1 e2 : ℝ) :
    ((calculate_route s1 s2 e1 e2 "driving").duration_minutes ≤
        (calculate_route s1 s2 e1 e2 "cycling").duration_minutes ∧
      (calculate_route s1 s2 e1 e2 "cycling").duration_minutes ≤
        (calculate_route s1 s2 e1 e2 "walking").duration_minutes) ∧
    (1 / 10 ≤ calculate_distance s1 s2 e1 e2 →
      (calculate_route s1 s2 e1 e2 "driving").duration_minutes <
          (calculate_route s1 s2 e1 e2 "cycling").duration_minutes ∧
        (calculate_route s1 s2 e1 e2 "cycling").duration_minutes <
          (calculate_route s1 s2 e1 e2 "walking").duration_minutes) := by
  obtain ⟨hfd, hfw, hfc⟩ := route_factor_eval
  obtain ⟨hsd, hsw, hsc⟩ := avg_speed_eval
  have hd0 := calculate_distance_nonneg s1 s2 e1 e2
  rw [calculate_route_duration_minutes, calculate_route_duration_minutes,
    calculate_route_duration_minutes, hfd, hfw, hfc, hsd, hsw, hsc]
  norm_num
  constructor
  · constructor
    · exact round1_mono (by nlinarith)
    · exact round1_mono (by nlinarith)
  · intro h
    constructor
    · exact round1_lt (by nlinarith)
    · exact round1_lt (by nlinarith)

theorem C5_witness :
    (calculate_route 0 0 0 90 "driving").duration_minutes <
        (calculate_route 0 0 0 90 "cycling").duration_minutes ∧
      (calculate_route 0 0 0 90 "cycling").duration_minutes <
        (calculate_route 0 0 0 90 "walking").duration_minutes :=
  (C5_amended_duration_order 0 0 0 90).2 dist_equator_90_large

/-- C6: `distance_matrix` on k origins and m destinations is a dense k×m
table; the `(i, j)` cell carries its own indices, `distance_km ≤
route_distance_km` (the route distance is the straight-line distance
inflated by the hardcoded 1.3 driving factor, with no mode parameter), and
the duration comes from the 60 km/h driving speed. -/
theorem C6_distance_matrix_cells (origins destinations : List (ℝ × ℝ)) (i j : ℕ)
    (hi : i < origins.length) (hj : j < destinations.length) :
    (distance_matrix origins destinations).matrix.length = origins.length ∧
    ((distance_matrix origins destinations).matrix.getD i []).length =
      destinations.length ∧
    (matrixCellAt origins destinations i j).origin_index = i ∧
    (matrixCellAt origins destinations i j).destination_index = j ∧
    (matrixCellAt origins destinations i j).distance_km ≤
      (matrixCellAt origins destinations i j).route_distance_km ∧
    (matrixCellAt origins destinations i j).distance_km =
      round2 (calculate_distance (origins.getD i (0, 0)).1 (origins.getD i (0, 0)).2
        (destinations.getD j (0, 0)).1 (destinations.getD j (0, 0)).2) ∧
    (matrixCellAt origins destinations i j).route_distance_km =
      round2 (calculate_distance (origins.getD i (0, 0)).1 (origins.getD i (0, 0)).2
        (destinations.getD j (0, 0)).1 (destinations.getD j (0, 0)).2 * 1.3) ∧
    (matrixCellAt origins destinations i j).duration_minutes =
      round1 (calculate_distance (origins.getD i (0, 0)).1 (origins.getD i (0, 0)).2
        (destinations.getD j (0, 0)).1 (destinations.getD j (0, 0)).2 * 1.3 / 60 * 60) := by
  have hcell : matrixCellAt origins destinations i j =
      matrixCell (origins.getD i (0, 0)) (destinations.getD j (0, 0)) i j := by
    unfold matrixCellAt
    exact distance_matrix_getD_cell hi hj
  have hd0 := calculate_distance_nonneg (origins.getD i (0, 0)).1
    (origins.getD i (0, 0)).2 (destinations.getD j (0, 0)).1 (destinations.getD j (0, 0)).2
  refine ⟨distance_matrix_length origins destinations,
    distance_matrix_row_length hi, ?_, ?_, ?_, ?_, ?_, ?_⟩ <;> rw [hcell]
  · rfl
  · rfl
  · exact round2_mono (by nlinarith)
  · rfl
  · rfl
  · rfl

theorem C6_witness :
    (distance_matrix [((0:ℝ), (0:ℝ))] [((0:ℝ), (90:ℝ))]).matrix.length = 1 ∧
      ((distance_matrix [((0:ℝ), (0:ℝ))] [((0:ℝ), (90:ℝ))]).matrix.getD 0 []).length = 1 ∧
      (matrixCellAt [((0:ℝ), (0:ℝ))] [((0:ℝ), (90:ℝ))] 0 0).origin_index = 0 ∧
      (matrixCellAt [((0:ℝ), (0:ℝ))] [((0:ℝ), (90:ℝ))] 0 0).destination_index = 0 ∧
      (matrixCellAt [((0:ℝ), (0:ℝ))] [((0:ℝ), (90:ℝ))] 0 0).distance_km ≤
        (matrixCellAt [((0:ℝ), (0:ℝ))] [((0:ℝ), (90:ℝ))] 0 0).route_distance_km := by
  have h := C6_distance_matrix_cells [((0:ℝ), (0:ℝ))] [((0:ℝ), (90:ℝ))] 0 0
    (by simp) (by simp)
  exact ⟨h.1, h.2.1, h.2.2.1, h.2.2.2.1, h.2.2.2.2.1⟩

/-- C7: for every ordered pair of coordinates the bearing lies in `[0, 360)`,
and for identical origin and destination it is exactly `0`. -/
theorem C7_bearing_range_and_self (lat1 lon1 lat2 lon2 : ℝ) :
    (0 ≤ calculate_bearing lat1 lon1 lat2 lon2 ∧
      calculate_bearing lat1 lon1 lat2 lon2 < 360) ∧
    calculate_bearing lat1 lon1 lat1 lon1 = 0 :=
  ⟨⟨calculate_bearing_nonneg lat1 lon1 lat2 lon2,
    calculate_bearing_lt_360 lat1 lon1 lat2 lon2⟩,
   calculate_bearing_self lat1 lon1⟩

/-- C8: the direction label is `directions[round(bearing/45) % 8]`, giving
North/East/South/West at 0/90/180/270 and Northeast at 45. -/
theorem C8_direction_labels :
    bearing_to_direction 0 = "North" ∧ bearing_to_direction 90 = "East" ∧
      bearing_to_direction 180 = "South" ∧ bearing_to_direction 270 = "West" ∧
      bearing_to_direction 45 = "Northeast" := by
  refine ⟨bearing_dir_zero, ?_, ?_, ?_, ?_⟩
  · rw [bearing_dir_of_int (k := 2) (by norm_num)]
    rfl
  · rw [bearing_dir_of_int (k := 4) (by norm_num)]
    rfl
  · rw [bearing_dir_of_int (k := 6) (by norm_num)]
    rfl
  · rw [bearing_dir_of_int (k := 1) (by norm_num)]
    rfl

/-- C9: an unrecognized mode string does not fail: `dict.get` falls back to
the driving road factor 1.3 and driving speed 60 km/h, and the returned
record equals the driving record with the unrecognized mode echoed in its
`mode` field. -/
theorem C9_unknown_mode (s1 s2 e1 e2 : ℝ) (mode : String) (h1 : mode ≠ "driving")
    (h2 : mode ≠ "walking") (h3 : mode ≠ "cycling") :
    calculate_route s1 s2 e1 e2 mode =
      { calculate_route s1 s2 e1 e2 "driving" with mode := mode } := by
  have hf := route_factor_default h1 h2 h3
  have hs := avg_speed_default h1 h2 h3
  have hf' : route_factor "driving" = 1.3 := by simp [route_factor]
  have hs' : avg_speed "driving" = 60 := by simp [avg_speed]
  unfold calculate_route
  rw [hf, hs, hf', hs']

theorem C9_witness :
    calculate_route 0 0 0 90 "hovercraft" =
      { calculate_route 0 0 0 90 "driving" with mode := "hovercraft" } :=
  C9_unknown_mode 0 0 0 90 "hovercraft" (by decide) (by decide) (by decide)

/-- C10: at the exact half-way boundaries the quantizer uses Python's
round-half-to-even: 22.5/45 = 0.5 rounds to 0 ("North") while 67.5/45 = 1.5
rounds to 2 ("East"), so adjacent half-boundaries alternate between the lower
and the upper label. -/
theorem C10_half_boundary_round_half_even :
    bearing_to_direction 22.5 = "North" ∧ bearing_to_direction 67.5 = "East" := by
  constructor
  · unfold bearing_to_direction
    rw [show (22.5:ℝ) / 45 = 1 / 2 by norm_num, pyRound_half]
    rfl
  · unfold bearing_to_direction
    rw [show (67.5:ℝ) / 45 = 3 / 2 by norm_num, pyRound_three_halves]
    rfl

end RoutingServer
